import Mathlib

/-!
Shallow embedding of the banking core of `oop_final_project_group2`
(`account_and_customer.py`, `bank.py`, `exceptions.py`).

Modelling conventions:
* Python `float` balances and amounts are modelled as `ℚ` (exact arithmetic).
* Python exceptions become an explicit `BankError` sum type; a stateful method
  that may raise returns `Except BankError α × σ` where `σ` is the mutated
  state (Python `raise` still leaves earlier in-place mutations visible, so
  the state is returned in the error case too).
* `hashlib.sha256(...).hexdigest()` is modelled as an injective encoding of
  the PIN string: the code only ever compares digests of PINs for equality,
  so any injective function is a faithful model of the intended behaviour.
* `datetime.now()` timestamps on log entries are dropped: no claim mentions
  them and they are not functional state.
* A Python argument `pin: str = None` together with the truthiness test
  `if not pin` is modelled as `Option String` with `pinAbsent` true on
  `none` and on `some ""`.
* Object identity of the owner back-reference (`account.owner != self`) is
  modelled by comparing the stored `owner_id` with the customer's id.
* Accounts passed to `transfer` are distinct objects (the embedding threads
  source and target as separate values, matching every use in the repo).
-/

/-- The exception classes of `exceptions.py` (plus Python's built-in
`ValueError` used by `bank.py` and `Customer.add_account`), each carrying
its message. -/
inductive BankError where
  | insufficientFundsError (msg : String)
  | invalidAmountError (msg : String)
  | accountNotFoundError (msg : String)
  | invalidPINError (msg : String)
  | accountLockedError (msg : String)
  | valueError (msg : String)
  deriving Repr, DecidableEq

/-- The exception class of a `BankError`, forgetting the message.
Two errors are "the same kind of failure" when their classes agree. -/
def BankError.errClass : BankError → String
  | .insufficientFundsError _ => "InsufficientFundsError"
  | .invalidAmountError _ => "InvalidAmountError"
  | .accountNotFoundError _ => "AccountNotFoundError"
  | .invalidPINError _ => "InvalidPINError"
  | .accountLockedError _ => "AccountLockedError"
  | .valueError _ => "ValueError"

/-- `ADMIN_KEY = "admin123"` (module-level constant,
`account_and_customer.py` line 6). -/
def ADMIN_KEY : String := "admin123"

/-- `Customer.__hash_pin`: sha256 hex digest, modelled as an injective
encoding of the PIN (see header comment). -/
def hash_pin (pin : String) : String := "sha256:" ++ pin

/-- One entry of `Account.__transactions` (the `datetime` field dropped):
`{"type": t, "amount": a, "balance_after": b}`. -/
structure Transaction where
  txType : String
  amount : ℚ
  balance_after : ℚ
  deriving Repr, DecidableEq

/-- The variant-specific private state: `SavingsAccount.__interest_rate`
(with `__minimum_balance` fixed at `100.0` by the constructor) or
`CheckingAccount.__overdraft_limit` (with `__overdraft_fee` fixed at
`25.0`). -/
inductive AccountType where
  | savings (interest_rate : ℚ)
  | checking (overdraft_limit : ℚ)
  deriving Repr, DecidableEq

/-- `SavingsAccount.__minimum_balance = 100.0`. -/
def minimum_balance : ℚ := 100

/-- `CheckingAccount.__overdraft_fee = 25.0`. -/
def overdraft_fee : ℚ := 25

/-- The state of an `Account` object (both variants), with the owner
back-reference reduced to the owner's id. -/
structure Account where
  account_number : String
  owner_id : String
  balance : ℚ
  transactions : List Transaction
  requires_pin_for_withdrawal : Bool
  atype : AccountType
  deriving Repr, DecidableEq

/-- `Account._log_transaction`: append an entry recording the current
(post-mutation) balance. -/
def Account.log_transaction (acc : Account) (txType : String) (amount : ℚ) : Account :=
  { acc with transactions :=
      acc.transactions ++ [⟨txType, amount, acc.balance⟩] }

/-- Python truthiness of the `pin` argument: `if not pin` is true when the
argument was omitted (`None`) or is the empty string. -/
def pinAbsent : Option String → Bool
  | none => true
  | some s => s.isEmpty

/-- The state of a `Customer` object. -/
structure Customer where
  customer_id : String
  name : String
  email : String
  pin_hash : String
  accounts : List Account
  failed_attempts : Nat
  locked : Bool
  deriving Repr, DecidableEq

/-- `Customer.__init__` with a raw PIN. -/
def Customer.mk_new (customer_id name email pin : String) : Customer :=
  { customer_id := customer_id, name := name, email := email,
    pin_hash := hash_pin pin, accounts := [],
    failed_attempts := 0, locked := false }

/-- `Customer.verify_pin` (`account_and_customer.py` lines 199-212):
raises `AccountLockedError` when already locked; on digest match resets
the counter and returns `true`; on mismatch increments the counter and,
when it reaches 3, sets the lock flag and raises `AccountLockedError`;
otherwise returns `false`. -/
def Customer.verify_pin (c : Customer) (pin : String) :
    Except BankError Bool × Customer :=
  if c.locked then
    (.error (.accountLockedError "Account is locked due to too many failed attempts"), c)
  else if hash_pin pin = c.pin_hash then
    (.ok true, { c with failed_attempts := 0 })
  else
    let fa := c.failed_attempts + 1
    if fa ≥ 3 then
      (.error (.accountLockedError "Account locked! Too many failed attempts"),
       { c with failed_attempts := fa, locked := true })
    else
      (.ok false, { c with failed_attempts := fa })

/-- `Customer.reset_pin` (lines 214-219): on successful verification of
the old PIN replaces the stored hash and returns `true`; a `false`
verification returns `false`; a raised error propagates. -/
def Customer.reset_pin (c : Customer) (old_pin new_pin : String) :
    Except BankError Bool × Customer :=
  match c.verify_pin old_pin with
  | (.ok true, c') => (.ok true, { c' with pin_hash := hash_pin new_pin })
  | (.ok false, c') => (.ok false, c')
  | (.error e, c') => (.error e, c')

/-- `Customer.unlock_account` body (lines 221-227): clears the lock flag
and the counter exactly when the supplied key equals `ADMIN_KEY`. -/
def Customer.unlock_account (c : Customer) (admin_key : String) : Bool × Customer :=
  if admin_key = ADMIN_KEY then
    (true, { c with locked := false, failed_attempts := 0 })
  else
    (false, c)

/-- `Customer.unlock_account()` called with its default argument
`admin_key: str = "ADMIN123"` (line 221). -/
def Customer.unlock_account_default (c : Customer) : Bool × Customer :=
  c.unlock_account "ADMIN123"

/-- `Customer.add_account` (lines 229-233): raises `ValueError` when the
account's owner reference is not this customer, otherwise appends the
account to the portfolio. -/
def Customer.add_account (c : Customer) (account : Account) :
    Except BankError Customer :=
  if account.owner_id ≠ c.customer_id then
    .error (.valueError "Account does not belong to this customer")
  else
    .ok { c with accounts := c.accounts ++ [account] }

/-- `Account.deposit` (lines 19-24): the `pin` argument is accepted but
never read; fails on non-positive amount, otherwise adds the amount and
logs a DEPOSIT entry. -/
def Account.deposit (acc : Account) (amount : ℚ) (pin : Option String) :
    Except BankError Unit × Account :=
  if amount ≤ 0 then
    (.error (.invalidAmountError "Deposit amount must be positive"), acc)
  else
    let acc' := { acc with balance := acc.balance + amount }
    (.ok (), acc'.log_transaction "DEPOSIT" amount)

/-- `SavingsAccount.withdraw` (lines 113-132), called with the account's
`__interest_rate` irrelevant; `rate` is carried only by `atype`. -/
def savings_withdraw (acc : Account) (owner : Customer) (amount : ℚ)
    (pin : Option String) : Except BankError Unit × Account × Customer :=
  if amount ≤ 0 then
    (.error (.invalidAmountError "Withdrawal amount must be positive"), acc, owner)
  else if pinAbsent pin then
    (.error (.invalidPINError "PIN required for withdrawal"), acc, owner)
  else
    match owner.verify_pin (pin.getD "") with
    | (.error e, owner') => (.error e, acc, owner')
    | (.ok false, owner') =>
        (.error (.invalidPINError "Invalid PIN for withdrawal"), acc, owner')
    | (.ok true, owner') =>
        if acc.balance - amount < minimum_balance then
          (.error (.insufficientFundsError
            "Cannot go below minimum balance of $100.0"), acc, owner')
        else
          let acc' := { acc with balance := acc.balance - amount }
          (.ok (), acc'.log_transaction "WITHDRAW" amount, owner')

/-- `CheckingAccount.withdraw` (lines 151-170). -/
def checking_withdraw (acc : Account) (owner : Customer)
    (overdraft_limit : ℚ) (amount : ℚ) (pin : Option String) :
    Except BankError Unit × Account × Customer :=
  if amount ≤ 0 then
    (.error (.invalidAmountError "Withdrawal amount must be positive"), acc, owner)
  else if pinAbsent pin then
    (.error (.invalidPINError "PIN required for withdrawal"), acc, owner)
  else
    match owner.verify_pin (pin.getD "") with
    | (.error e, owner') => (.error e, acc, owner')
    | (.ok false, owner') =>
        (.error (.invalidPINError "Invalid PIN for withdrawal"), acc, owner')
    | (.ok true, owner') =>
        if acc.balance - amount < -overdraft_limit then
          (.error (.insufficientFundsError
            ("Cannot exceed overdraft limit of $" ++ toString overdraft_limit)),
           acc, owner')
        else
          let acc' := { acc with balance := acc.balance - amount }
          (.ok (), acc'.log_transaction "WITHDRAW" amount, owner')

/-- Dynamic dispatch of the abstract `Account.withdraw` to the variant's
implementation. -/
def Account.withdraw (acc : Account) (owner : Customer) (amount : ℚ)
    (pin : Option String) : Except BankError Unit × Account × Customer :=
  match acc.atype with
  | .savings _ => savings_withdraw acc owner amount pin
  | .checking lim => checking_withdraw acc owner lim amount pin

/-- The tail of `Account.transfer` (lines 48-51): withdraw from self,
deposit into the target (with `pin=None`), then log
`f"TRANSFER to {target_account.account_number}"`. -/
def transfer_move (self : Account) (owner : Customer) (target : Account)
    (amount : ℚ) (pin : Option String) :
    Except BankError Unit × Account × Account × Customer :=
  match self.withdraw owner amount pin with
  | (.error e, self', owner') => (.error e, self', target, owner')
  | (.ok (), self', owner') =>
      match target.deposit amount none with
      | (.error e, target') => (.error e, self', target', owner')
      | (.ok (), target') =>
          (.ok (),
           self'.log_transaction ("TRANSFER to " ++ target.account_number) amount,
           target', owner')

/-- The PIN-check stage of `Account.transfer` (lines 42-51), entered when
the funds pre-check did not raise: `__requires_pin_for_withdrawal` gate,
truthiness check on `pin`, owner verification (the outer check of the
"double" PIN verification), then the withdraw/deposit/log tail. -/
def transfer_pin_stage (self : Account) (owner : Customer) (target : Account)
    (amount : ℚ) (pin : Option String) :
    Except BankError Unit × Account × Account × Customer :=
  if self.requires_pin_for_withdrawal then
    if pinAbsent pin then
      (.error (.invalidPINError "PIN required for withdrawal"), self, target, owner)
    else
      match owner.verify_pin (pin.getD "") with
      | (.error e, owner') => (.error e, self, target, owner')
      | (.ok false, owner') =>
          (.error (.invalidPINError "Invalid PIN for transfer"), self, target, owner')
      | (.ok true, owner') => transfer_move self owner' target amount pin
  else transfer_move self owner target amount pin

/-- `Account.transfer` (lines 31-51): funds pre-check (with the overdraft
allowance when `self` is a `CheckingAccount`), then the PIN stage. -/
def Account.transfer (self : Account) (owner : Customer) (target : Account)
    (amount : ℚ) (pin : Option String) :
    Except BankError Unit × Account × Account × Customer :=
  let fundsFail : Option BankError :=
    if amount > self.balance then
      match self.atype with
      | .checking lim =>
          if amount > self.balance + lim then
            some (.insufficientFundsError "Overdraft limit exceeded")
          else none
      | .savings _ => some (.insufficientFundsError "Insufficient funds")
    else none
  match fundsFail with
  | some e => (.error e, self, target, owner)
  | none => transfer_pin_stage self owner target amount pin

/-- `SavingsAccount.apply_monthly_charges_or_interest` (lines 134-139). -/
def savings_apply_monthly (acc : Account) (interest_rate : ℚ) : Account :=
  if acc.balance ≥ minimum_balance then
    let monthly_interest := acc.balance * interest_rate / 12
    let acc' := { acc with balance := acc.balance + monthly_interest }
    acc'.log_transaction "INTEREST" monthly_interest
  else acc

/-- `CheckingAccount.apply_monthly_charges_or_interest` (lines 172-176). -/
def checking_apply_monthly (acc : Account) : Account :=
  if acc.balance < 0 then
    let acc' := { acc with balance := acc.balance - overdraft_fee }
    acc'.log_transaction "OVERDRAFT_FEE" (-overdraft_fee)
  else acc

/-- Dynamic dispatch of `apply_monthly_charges_or_interest`. -/
def Account.apply_monthly_charges_or_interest (acc : Account) : Account :=
  match acc.atype with
  | .savings rate => savings_apply_monthly acc rate
  | .checking _ => checking_apply_monthly acc

/-- Association-list read, first match — a Python `dict` (whose keys are
unique) modelled as a list of key/value pairs. -/
def dict_get {α : Type} : List (String × α) → String → Option α
  | [], _ => none
  | (k, v) :: rest, key => if k = key then some v else dict_get rest key

/-- In-place mutation of the object stored under a key: every entry with
that key gets the new value (a dict holds each key once, so at most one
entry changes). -/
def dict_update {α : Type} : List (String × α) → String → α → List (String × α)
  | [], _, _ => []
  | (k, v0) :: rest, key, v =>
      (if k = key then (k, v) else (k, v0)) :: dict_update rest key v

/-- Python `d[k] = v`: overwrite when the key is present, otherwise append
(insertion order preserved). -/
def dict_set {α : Type} (l : List (String × α)) (key : String) (v : α) :
    List (String × α) :=
  if (dict_get l key).isSome then dict_update l key v else l ++ [(key, v)]

/-- The state of a `Bank` object (`bank.py`): both dicts modelled as
association lists. The Python dicts and the customers' portfolios share
`Account` objects by reference; the embedding duplicates the value into
both indexes, which agrees with the source on everything
`Bank.create_account` does. -/
structure Bank where
  bank_name : String
  customers : List (String × Customer)
  accounts : List (String × Account)
  deriving Repr, DecidableEq

/-- Python `str.upper()` on the `account_type` argument (ASCII in this
repo): uppercase each character. -/
def str_upper (s : String) : String := ⟨s.data.map Char.toUpper⟩

/-- Python `f"{n:03d}"`: decimal, left-padded with zeros to width 3. -/
def pad3 (n : Nat) : String :=
  if n < 10 then "00" ++ toString n
  else if n < 100 then "0" ++ toString n
  else toString n

/-- `Bank.create_account` (`bank.py` lines 25-47): looks up the customer
(`ValueError` when absent), synthesizes the account number
`f"{customer_id}-{len(customer.accounts) + 1:03d}"`, builds the variant
with its keyword-argument defaults (`interest_rate` 0.02, `overdraft_limit`
500.0), registers it in the customer's portfolio and in the bank's global
index, and returns it. -/
def Bank.create_account (b : Bank) (customer_id : String)
    (account_type : String) (initial_balance : ℚ)
    (kw_interest_rate : Option ℚ) (kw_overdraft_limit : Option ℚ) :
    Except BankError (Account × Bank) :=
  match dict_get b.customers customer_id with
  | none => .error (.valueError ("Customer " ++ customer_id ++ " not found"))
  | some customer =>
      let account_number := customer_id ++ "-" ++ pad3 (customer.accounts.length + 1)
      let made : Option Account :=
        if str_upper account_type = "SAVINGS" then
          some { account_number := account_number,
                 owner_id := customer.customer_id,
                 balance := initial_balance, transactions := [],
                 requires_pin_for_withdrawal := true,
                 atype := .savings (kw_interest_rate.getD (2/100)) }
        else if str_upper account_type = "CHECKING" then
          some { account_number := account_number,
                 owner_id := customer.customer_id,
                 balance := initial_balance, transactions := [],
                 requires_pin_for_withdrawal := true,
                 atype := .checking (kw_overdraft_limit.getD 500) }
        else none
      match made with
      | none => .error (.valueError ("Unknown account type: " ++ account_type))
      | some account =>
          match customer.add_account account with
          | .error e => .error e
          | .ok customer' =>
              .ok (account,
                   { b with
                     customers := dict_update b.customers customer_id customer',
                     accounts := dict_set b.accounts account_number account })

/-- The multiset of accounts reachable from customer portfolios. -/
def Bank.portfolioAccounts (b : Bank) : Multiset Account :=
  (b.customers.flatMap fun p => p.2.accounts : List Account)

/-- The multiset of accounts in the bank's global index. -/
def Bank.indexAccounts (b : Bank) : Multiset Account :=
  (b.accounts.map Prod.snd : List Account)

/-- A concrete customer (PIN `1234`), used to instantiate theorems. -/
def wCustomer : Customer := Customer.mk_new "cust001" "Alice" "alice@example.com" "1234"

/-- A concrete savings account of `wCustomer` with balance 1000. -/
def wSavings : Account :=
  ⟨"cust001-001", "cust001", 1000, [], true, .savings (2/100)⟩

/-- A concrete checking account of `wCustomer` with balance 500 and the
default overdraft limit. -/
def wChecking : Account :=
  ⟨"cust001-002", "cust001", 500, [], true, .checking 500⟩

/-- A concrete transfer target account with balance 1500. -/
def wTarget : Account :=
  ⟨"cust002-001", "cust002", 1500, [], true, .savings (2/100)⟩

/-- `wCustomer` in the locked state. -/
def wLockedCustomer : Customer := { wCustomer with locked := true }

/-- A concrete one-customer bank used to instantiate the `create_account`
theorem. -/
def wBank : Bank := ⟨"First Bank", [("cust001", wCustomer)], []⟩

/-- The exception class of an operation result: `none` on success. -/
def resultClass {α : Type} : Except BankError α → Option String
  | .error e => some e.errClass
  | .ok _ => none

/-- C6: for every account and amount, `deposit` fails with
`InvalidAmountError` iff the amount is non-positive; otherwise it adds
exactly the amount, appends a DEPOSIT log entry carrying that amount, and
its result is entirely independent of the `pin` argument (the owner's PIN
and lock state are never consulted: `deposit` does not touch the owner at
all). -/
theorem C6_deposit_correct (acc : Account) (amount : ℚ) (pin : Option String) :
    (amount ≤ 0 → acc.deposit amount pin
        = (.error (.invalidAmountError "Deposit amount must be positive"), acc)) ∧
    (0 < amount →
      acc.deposit amount pin
        = (.ok (),
           { acc with
             balance := acc.balance + amount,
             transactions := acc.transactions
               ++ [⟨"DEPOSIT", amount, acc.balance + amount⟩] })) ∧
    (∀ pin2 : Option String, acc.deposit amount pin = acc.deposit amount pin2) := by
  refine ⟨fun h => ?_, fun h => ?_, fun pin2 => rfl⟩
  · unfold Account.deposit
    rw [if_pos h]
  · unfold Account.deposit Account.log_transaction
    rw [if_neg (not_le.mpr h)]

/-- Witness for C6 at a locked owner's account, amount 200, no PIN. -/
theorem C6_deposit_correct_witness :
    (0 : ℚ) < 200 ∧
    wSavings.deposit 200 none
      = (.ok (),
         { wSavings with
           balance := wSavings.balance + 200,
           transactions := wSavings.transactions
             ++ [⟨"DEPOSIT", 200, wSavings.balance + 200⟩] }) :=
  ⟨by norm_num, (C6_deposit_correct wSavings 200 none).2.1 (by norm_num)⟩

/-- C7: monthly accrual. Savings with balance at or above the 100.0
minimum gains `balance * rate / 12` and logs an INTEREST entry, and is
untouched below the minimum; Checking with negative balance loses the
fixed 25.0 fee and logs an OVERDRAFT_FEE entry whose amount is the
negative of the fee, and is untouched at non-negative balance. -/
theorem C7_monthly_accrual (acc : Account) (rate lim : ℚ) :
    (acc.atype = .savings rate →
      (minimum_balance ≤ acc.balance →
        acc.apply_monthly_charges_or_interest
          = { acc with
              balance := acc.balance + acc.balance * rate / 12,
              transactions := acc.transactions
                ++ [⟨"INTEREST", acc.balance * rate / 12,
                     acc.balance + acc.balance * rate / 12⟩] }) ∧
      (acc.balance < minimum_balance → acc.apply_monthly_charges_or_interest = acc)) ∧
    (acc.atype = .checking lim →
      (acc.balance < 0 →
        acc.apply_monthly_charges_or_interest
          = { acc with
              balance := acc.balance - overdraft_fee,
              transactions := acc.transactions
                ++ [⟨"OVERDRAFT_FEE", -overdraft_fee,
                     acc.balance - overdraft_fee⟩] }) ∧
      (0 ≤ acc.balance → acc.apply_monthly_charges_or_interest = acc)) := by
  constructor
  · intro hty
    have hd : acc.apply_monthly_charges_or_interest = savings_apply_monthly acc rate := by
      unfold Account.apply_monthly_charges_or_interest
      rw [hty]
    rw [hd]
    unfold savings_apply_monthly Account.log_transaction
    constructor
    · intro h
      rw [if_pos (show acc.balance ≥ minimum_balance from h)]
    · intro h
      rw [if_neg (show ¬ (acc.balance ≥ minimum_balance) from not_le.mpr h)]
  · intro hty
    have hd : acc.apply_monthly_charges_or_interest = checking_apply_monthly acc := by
      unfold Account.apply_monthly_charges_or_interest
      rw [hty]
    rw [hd]
    unfold checking_apply_monthly Account.log_transaction
    constructor
    · intro h
      rw [if_pos h]
    · intro h
      rw [if_neg (not_lt.mpr h)]

/-- Witness for C7: interest accrues on the concrete savings account. -/
theorem C7_monthly_accrual_witness :
    wSavings.atype = .savings (2/100) ∧
    minimum_balance ≤ wSavings.balance ∧
    wSavings.apply_monthly_charges_or_interest
      = { wSavings with
          balance := wSavings.balance + wSavings.balance * (2/100) / 12,
          transactions := wSavings.transactions
            ++ [⟨"INTEREST", wSavings.balance * (2/100) / 12,
                 wSavings.balance + wSavings.balance * (2/100) / 12⟩] } :=
  ⟨rfl, by norm_num [wSavings, minimum_balance],
   ((C7_monthly_accrual wSavings (2/100) 0).1 rfl).1
     (by norm_num [wSavings, minimum_balance])⟩

/-- C10: `unlock_account` clears the lock flag and the failure counter
and returns `true` exactly when the supplied key equals the module
constant `ADMIN_KEY = "admin123"`; with any other key (in particular with
the default argument `"ADMIN123"`, which differs from the stored secret)
it returns `false` and leaves the state untouched. -/
theorem C10_unlock_account (c : Customer) (key : String) :
    (key = ADMIN_KEY →
      c.unlock_account key
        = (true, { c with locked := false, failed_attempts := 0 })) ∧
    (key ≠ ADMIN_KEY → c.unlock_account key = (false, c)) ∧
    ADMIN_KEY = "admin123" ∧
    c.unlock_account_default = (false, c) := by
  refine ⟨fun h => ?_, fun h => ?_, rfl, ?_⟩
  · unfold Customer.unlock_account
    rw [if_pos h]
  · unfold Customer.unlock_account
    rw [if_neg h]
  · unfold Customer.unlock_account_default Customer.unlock_account
    rw [if_neg (by decide : ¬ ("ADMIN123" = ADMIN_KEY))]

/-- Witness for C10 on the concrete locked customer: the correct secret
unlocks, the default argument does not. -/
theorem C10_unlock_account_witness :
    ("admin123" : String) = ADMIN_KEY ∧
    wLockedCustomer.unlock_account "admin123"
      = (true, { wLockedCustomer with locked := false, failed_attempts := 0 }) ∧
    wLockedCustomer.unlock_account_default = (false, wLockedCustomer) :=
  ⟨rfl, (C10_unlock_account wLockedCustomer "admin123").1 rfl,
   (C10_unlock_account wLockedCustomer "admin123").2.2.2⟩

/-- C2: PIN verification and lockout. A locked customer's `verify_pin`
always raises `AccountLockedError` and changes nothing, even on the
correct PIN; an unlocked customer's correct PIN resets the counter to 0
and returns `true`; a wrong PIN increments the counter, and the call on
which the counter reaches 3 sets the lock flag and itself raises
`AccountLockedError`, while earlier wrong attempts return `false`. -/
theorem C2_verify_pin_lockout (c : Customer) (pin : String) :
    (c.locked = true →
      c.verify_pin pin
        = (.error (.accountLockedError
            "Account is locked due to too many failed attempts"), c)) ∧
    (c.locked = false → hash_pin pin = c.pin_hash →
      c.verify_pin pin = (.ok true, { c with failed_attempts := 0 })) ∧
    (c.locked = false → hash_pin pin ≠ c.pin_hash → c.failed_attempts + 1 < 3 →
      c.verify_pin pin
        = (.ok false, { c with failed_attempts := c.failed_attempts + 1 })) ∧
    (c.locked = false → hash_pin pin ≠ c.pin_hash → 3 ≤ c.failed_attempts + 1 →
      c.verify_pin pin
        = (.error (.accountLockedError "Account locked! Too many failed attempts"),
           { c with failed_attempts := c.failed_attempts + 1, locked := true })) := by
  refine ⟨fun h1 => ?_, fun h1 h2 => ?_, fun h1 h2 h3 => ?_, fun h1 h2 h3 => ?_⟩
  · simp [Customer.verify_pin, h1]
  · simp [Customer.verify_pin, h1, h2]
  · have h4 : ¬ (c.failed_attempts + 1 ≥ 3) := by omega
    simp [Customer.verify_pin, h1, h2, h4]
  · have h4 : c.failed_attempts + 1 ≥ 3 := h3
    simp [Customer.verify_pin, h1, h2, h4]

/-- Witness for C2: a locked customer rejects even the correct PIN, and
the third consecutive failure locks the concrete customer whose counter
stands at 2. -/
theorem C2_verify_pin_lockout_witness :
    wLockedCustomer.locked = true ∧
    hash_pin "1234" = wLockedCustomer.pin_hash ∧
    wLockedCustomer.verify_pin "1234"
      = (.error (.accountLockedError
          "Account is locked due to too many failed attempts"), wLockedCustomer) ∧
    { wCustomer with failed_attempts := 2 }.verify_pin "9999"
      = (.error (.accountLockedError "Account locked! Too many failed attempts"),
         { wCustomer with failed_attempts := 3, locked := true }) :=
  ⟨rfl, rfl,
   (C2_verify_pin_lockout wLockedCustomer "1234").1 rfl,
   (C2_verify_pin_lockout { wCustomer with failed_attempts := 2 } "9999").2.2.2
     rfl (by decide) (by norm_num)⟩

/-- C9: for an unlocked customer, `reset_pin(old, new)` returns `true`
exactly when `verify_pin(old)` (on the same starting state) returns
`true`; an error raised by the verification propagates unchanged; and
after a successful reset, verifying the new PIN on the resulting state
succeeds. -/
theorem C9_reset_pin_roundtrip (c : Customer) (old_pin new_pin : String)
    (h : c.locked = false) :
    ((c.reset_pin old_pin new_pin).1 = .ok true
      ↔ (c.verify_pin old_pin).1 = .ok true) ∧
    (∀ e : BankError, (c.verify_pin old_pin).1 = .error e →
      (c.reset_pin old_pin new_pin).1 = .error e) ∧
    ((c.reset_pin old_pin new_pin).1 = .ok true →
      (((c.reset_pin old_pin new_pin).2).verify_pin new_pin).1 = .ok true) := by
  by_cases hm : hash_pin old_pin = c.pin_hash
  · have hv : c.verify_pin old_pin = (.ok true, { c with failed_attempts := 0 }) := by
      simp [Customer.verify_pin, h, hm]
    have hr : c.reset_pin old_pin new_pin
        = (.ok true, { c with failed_attempts := 0, pin_hash := hash_pin new_pin }) := by
      unfold Customer.reset_pin
      rw [hv]
    refine ⟨?_, ?_, ?_⟩
    · rw [hr, hv]
    · intro e he
      rw [hv] at he
      simp at he
    · intro _
      rw [hr]
      simp [Customer.verify_pin, h]
  · by_cases hf : c.failed_attempts + 1 ≥ 3
    · have hv : c.verify_pin old_pin
          = (.error (.accountLockedError "Account locked! Too many failed attempts"),
             { c with failed_attempts := c.failed_attempts + 1, locked := true }) := by
        simp [Customer.verify_pin, h, hm, hf]
      have hr : c.reset_pin old_pin new_pin
          = (.error (.accountLockedError "Account locked! Too many failed attempts"),
             { c with failed_attempts := c.failed_attempts + 1, locked := true }) := by
        unfold Customer.reset_pin
        rw [hv]
      refine ⟨?_, ?_, ?_⟩
      · rw [hr, hv]
      · intro e he
        rw [hv] at he
        rw [hr]
        simp at he ⊢
        exact he
      · intro hcon
        rw [hr] at hcon
        simp at hcon
    · have hv : c.verify_pin old_pin
          = (.ok false, { c with failed_attempts := c.failed_attempts + 1 }) := by
        simp [Customer.verify_pin, h, hm, hf]
      have hr : c.reset_pin old_pin new_pin
          = (.ok false, { c with failed_attempts := c.failed_attempts + 1 }) := by
        unfold Customer.reset_pin
        rw [hv]
      refine ⟨?_, ?_, ?_⟩
      · rw [hr, hv]
      · intro e he
        rw [hv] at he
        simp at he
      · intro hcon
        rw [hr] at hcon
        simp at hcon

/-- Witness for C9 on the concrete unlocked customer: the reset/verify
equivalence holds for the stored PIN. -/
theorem C9_reset_pin_roundtrip_witness :
    wCustomer.locked = false ∧
    ((wCustomer.reset_pin "1234" "5678").1 = .ok true
      ↔ (wCustomer.verify_pin "1234").1 = .ok true) ∧
    ((wCustomer.reset_pin "1234" "5678").1 = .ok true →
      (((wCustomer.reset_pin "1234" "5678").2).verify_pin "5678").1 = .ok true) :=
  ⟨rfl, (C9_reset_pin_roundtrip wCustomer "1234" "5678" rfl).1,
   (C9_reset_pin_roundtrip wCustomer "1234" "5678" rfl).2.2⟩

/-- A presented non-empty PIN does not trip the `if not pin` truthiness
check. -/
lemma pinAbsent_some_ne (p : String) (hp : p ≠ "") : ¬ (pinAbsent (some p) = true) := by
  simp [pinAbsent, String.isEmpty_iff, hp]

/-- C1: with a positive amount and a present, correct PIN of an unlocked
owner, a Savings withdrawal succeeds iff `balance - amount ≥ 100.0` and a
Checking withdrawal succeeds iff `balance - amount ≥ -overdraft_limit`;
on success the balance drops by exactly the amount and a WITHDRAW entry
is appended, otherwise `InsufficientFundsError` is raised. -/
theorem C1_withdraw_policy (acc : Account) (owner : Customer) (amount : ℚ) (p : String)
    (hamt : 0 < amount) (hp : p ≠ "") (hlock : owner.locked = false)
    (hpin : hash_pin p = owner.pin_hash) :
    (∀ rate, acc.atype = .savings rate →
      (((acc.withdraw owner amount (some p)).1 = .ok ())
        ↔ 100 ≤ acc.balance - amount) ∧
      (100 ≤ acc.balance - amount →
        acc.withdraw owner amount (some p)
          = (.ok (),
             { acc with
               balance := acc.balance - amount,
               transactions := acc.transactions
                 ++ [⟨"WITHDRAW", amount, acc.balance - amount⟩] },
             { owner with failed_attempts := 0 })) ∧
      (acc.balance - amount < 100 →
        (acc.withdraw owner amount (some p)).1
          = .error (.insufficientFundsError
              "Cannot go below minimum balance of $100.0"))) ∧
    (∀ lim, acc.atype = .checking lim →
      (((acc.withdraw owner amount (some p)).1 = .ok ())
        ↔ -lim ≤ acc.balance - amount) ∧
      (-lim ≤ acc.balance - amount →
        acc.withdraw owner amount (some p)
          = (.ok (),
             { acc with
               balance := acc.balance - amount,
               transactions := acc.transactions
                 ++ [⟨"WITHDRAW", amount, acc.balance - amount⟩] },
             { owner with failed_attempts := 0 })) ∧
      (acc.balance - amount < -lim →
        (acc.withdraw owner amount (some p)).1
          = .error (.insufficientFundsError
              ("Cannot exceed overdraft limit of $" ++ toString lim)))) := by
  have hv : owner.verify_pin ((some p).getD "")
      = (.ok true, { owner with failed_attempts := 0 }) := by
    simp [Customer.verify_pin, hlock, hpin]
  have h1 : ¬ (amount ≤ 0) := not_le.mpr hamt
  have h2 := pinAbsent_some_ne p hp
  constructor
  · intro rate hty
    have hd : acc.withdraw owner amount (some p)
        = savings_withdraw acc owner amount (some p) := by
      unfold Account.withdraw
      rw [hty]
    rw [hd]
    unfold savings_withdraw
    rw [if_neg h1, if_neg h2, hv]
    dsimp only
    refine ⟨?_, ?_, ?_⟩
    · by_cases h4 : acc.balance - amount < minimum_balance
      · rw [if_pos h4]
        simp only [minimum_balance] at h4
        constructor
        · intro hcon
          simp at hcon
        · intro hle
          exact absurd hle (not_le.mpr h4)
      · rw [if_neg h4]
        simp only [minimum_balance] at h4
        constructor
        · intro _
          exact not_lt.mp h4
        · intro _
          rfl
    · intro hle
      rw [if_neg (show ¬ (acc.balance - amount < minimum_balance) from not_lt.mpr hle)]
      rfl
    · intro hlt
      rw [if_pos (show acc.balance - amount < minimum_balance from hlt)]
  · intro lim hty
    have hd : acc.withdraw owner amount (some p)
        = checking_withdraw acc owner lim amount (some p) := by
      unfold Account.withdraw
      rw [hty]
    rw [hd]
    unfold checking_withdraw
    rw [if_neg h1, if_neg h2, hv]
    dsimp only
    refine ⟨?_, ?_, ?_⟩
    · by_cases h4 : acc.balance - amount < -lim
      · rw [if_pos h4]
        constructor
        · intro hcon
          simp at hcon
        · intro hle
          exact absurd hle (not_le.mpr h4)
      · rw [if_neg h4]
        constructor
        · intro _
          exact not_lt.mp h4
        · intro _
          rfl
    · intro hle
      rw [if_neg (not_lt.mpr hle)]
      rfl
    · intro hlt
      rw [if_pos hlt]

/-- Witness for C1: the concrete savings withdrawal of 150 from balance
1000 succeeds, and the concrete checking withdrawal of 1100 from balance
500 against limit 500 fails with `InsufficientFundsError`. -/
theorem C1_withdraw_policy_witness :
    (0 : ℚ) < 150 ∧ ("1234" : String) ≠ "" ∧ wCustomer.locked = false ∧
    hash_pin "1234" = wCustomer.pin_hash ∧
    (wSavings.withdraw wCustomer 150 (some "1234")).1 = .ok () ∧
    (wChecking.withdraw wCustomer 1100 (some "1234")).1
      = .error (.insufficientFundsError
          ("Cannot exceed overdraft limit of $" ++ toString (500 : ℚ))) :=
  ⟨by norm_num, by decide, rfl, rfl,
   ((C1_withdraw_policy wSavings wCustomer 150 "1234"
       (by norm_num) (by decide) rfl rfl).1 (2/100) rfl).1.mpr
     (by norm_num [wSavings]),
   ((C1_withdraw_policy wChecking wCustomer 1100 "1234"
       (by norm_num) (by decide) rfl rfl).2 500 rfl).2.2
     (by norm_num [wChecking])⟩

/-- C5 counterexample: on a concrete account, an absent PIN and a wrong
PIN both fail with the same exception class `InvalidPINError` (the code
has no `PINRequiredError` class), so the claimed distinction of failure
kinds is false; they differ only in message. -/
theorem C5_counterexample :
    (wSavings.withdraw wCustomer 10 none).1
      = .error (.invalidPINError "PIN required for withdrawal") ∧
    (wSavings.withdraw wCustomer 10 (some "0000")).1
      = .error (.invalidPINError "Invalid PIN for withdrawal") ∧
    resultClass (wSavings.withdraw wCustomer 10 none).1
      = resultClass (wSavings.withdraw wCustomer 10 (some "0000")).1 ∧
    resultClass (wSavings.withdraw wCustomer 10 none).1 = some "InvalidPINError" := by
  refine ⟨rfl, rfl, rfl, rfl⟩

/-- C5 (amended): with a positive amount, `withdraw` with an absent
(missing/empty) pin fails with `InvalidPINError` carrying the message
"PIN required for withdrawal", and with a present but incorrect pin (of
an unlocked owner below the lockout threshold) fails with
`InvalidPINError` carrying "Invalid PIN for withdrawal" — the same
exception class in both cases, distinguished only by message. -/
theorem C5_amended (acc : Account) (owner : Customer) (amount : ℚ)
    (pin : Option String) (p : String) (hamt : 0 < amount) :
    (pinAbsent pin = true →
      (acc.withdraw owner amount pin).1
        = .error (.invalidPINError "PIN required for withdrawal")) ∧
    (pin = some p → pinAbsent pin = false →
      owner.locked = false → hash_pin p ≠ owner.pin_hash →
      owner.failed_attempts + 1 < 3 →
      (acc.withdraw owner amount pin).1
        = .error (.invalidPINError "Invalid PIN for withdrawal")) := by
  have h1 : ¬ (amount ≤ 0) := not_le.mpr hamt
  rcases hty : acc.atype with rate | lim
  · have hd : acc.withdraw owner amount pin = savings_withdraw acc owner amount pin := by
      unfold Account.withdraw
      rw [hty]
    rw [hd]
    unfold savings_withdraw
    rw [if_neg h1]
    constructor
    · intro hpa
      rw [if_pos hpa]
    · intro hpin hpa hlock hm hcnt
      subst hpin
      rw [if_neg (by simp [hpa])]
      have hv : owner.verify_pin ((some p).getD "")
          = (.ok false, { owner with failed_attempts := owner.failed_attempts + 1 }) := by
        have hge : ¬ (owner.failed_attempts + 1 ≥ 3) := by omega
        simp [Customer.verify_pin, hlock, hm, hge]
      rw [hv]
  · have hd : acc.withdraw owner amount pin = checking_withdraw acc owner lim amount pin := by
      unfold Account.withdraw
      rw [hty]
    rw [hd]
    unfold checking_withdraw
    rw [if_neg h1]
    constructor
    · intro hpa
      rw [if_pos hpa]
    · intro hpin hpa hlock hm hcnt
      subst hpin
      rw [if_neg (by simp [hpa])]
      have hv : owner.verify_pin ((some p).getD "")
          = (.ok false, { owner with failed_attempts := owner.failed_attempts + 1 }) := by
        have hge : ¬ (owner.failed_attempts + 1 ≥ 3) := by omega
        simp [Customer.verify_pin, hlock, hm, hge]
      rw [hv]

/-- Witness for the amended C5 at a concrete checking account. -/
theorem C5_amended_witness :
    (0 : ℚ) < 10 ∧
    (wChecking.withdraw wCustomer 10 none).1
      = .error (.invalidPINError "PIN required for withdrawal") ∧
    (wChecking.withdraw wCustomer 10 (some "0000")).1
      = .error (.invalidPINError "Invalid PIN for withdrawal") :=
  ⟨by norm_num,
   (C5_amended wChecking wCustomer 10 none "0000" (by norm_num)).1 rfl,
   (C5_amended wChecking wCustomer 10 (some "0000") "0000" (by norm_num)).2
     rfl rfl rfl (by decide) (by decide)⟩

/-- Inversion: a `verify_pin` call that returns `true` leaves the customer
with the failure counter reset and nothing else changed. -/
lemma verify_pin_ok_true_inv (c : Customer) (q : String) (c' : Customer)
    (hv : c.verify_pin q = (.ok true, c')) : c' = { c with failed_attempts := 0 } := by
  simp only [Customer.verify_pin] at hv
  split at hv
  · simp at hv
  · split at hv
    · simp only [Prod.mk.injEq] at hv
      exact hv.2.symm
    · split at hv
      · simp at hv
      · simp at hv

/-- `deposit` with a positive amount: the full success equation. -/
lemma deposit_pos_eq (acc : Account) (amount : ℚ) (pin : Option String) (h : 0 < amount) :
    acc.deposit amount pin
      = (.ok (),
         { acc with
           balance := acc.balance + amount,
           transactions := acc.transactions
             ++ [⟨"DEPOSIT", amount, acc.balance + amount⟩] }) := by
  unfold Account.deposit Account.log_transaction
  rw [if_neg (not_le.mpr h)]

/-- Shape of every `SavingsAccount.withdraw` outcome: either an error that
leaves the account untouched, or the unique success state. -/
lemma savings_withdraw_shape (acc : Account) (owner : Customer) (amount : ℚ)
    (pin : Option String) :
    ((savings_withdraw acc owner amount pin).2.1 = acc ∧
      ∃ e, (savings_withdraw acc owner amount pin).1 = .error e) ∨
    (0 < amount ∧
      savings_withdraw acc owner amount pin
        = (.ok (),
           { acc with
             balance := acc.balance - amount,
             transactions := acc.transactions
               ++ [⟨"WITHDRAW", amount, acc.balance - amount⟩] },
           { owner with failed_attempts := 0 })) := by
  unfold savings_withdraw
  by_cases h1 : amount ≤ 0
  · rw [if_pos h1]
    exact Or.inl ⟨rfl, _, rfl⟩
  · rw [if_neg h1]
    by_cases h2 : pinAbsent pin = true
    · rw [if_pos h2]
      exact Or.inl ⟨rfl, _, rfl⟩
    · rw [if_neg h2]
      rcases hv : owner.verify_pin (pin.getD "") with ⟨res, owner'⟩
      rcases res with e | b
      · exact Or.inl ⟨rfl, e, rfl⟩
      · cases b
        · exact Or.inl ⟨rfl, _, rfl⟩
        · dsimp only
          by_cases h4 : acc.balance - amount < minimum_balance
          · rw [if_pos h4]
            exact Or.inl ⟨rfl, _, rfl⟩
          · rw [if_neg h4]
            have ho' : owner' = { owner with failed_attempts := 0 } :=
              verify_pin_ok_true_inv owner (pin.getD "") owner' hv
            rw [ho']
            exact Or.inr ⟨not_le.mp h1, rfl⟩

/-- Shape of every `CheckingAccount.withdraw` outcome. -/
lemma checking_withdraw_shape (acc : Account) (owner : Customer) (lim amount : ℚ)
    (pin : Option String) :
    ((checking_withdraw acc owner lim amount pin).2.1 = acc ∧
      ∃ e, (checking_withdraw acc owner lim amount pin).1 = .error e) ∨
    (0 < amount ∧
      checking_withdraw acc owner lim amount pin
        = (.ok (),
           { acc with
             balance := acc.balance - amount,
             transactions := acc.transactions
               ++ [⟨"WITHDRAW", amount, acc.balance - amount⟩] },
           { owner with failed_attempts := 0 })) := by
  unfold checking_withdraw
  by_cases h1 : amount ≤ 0
  · rw [if_pos h1]
    exact Or.inl ⟨rfl, _, rfl⟩
  · rw [if_neg h1]
    by_cases h2 : pinAbsent pin = true
    · rw [if_pos h2]
      exact Or.inl ⟨rfl, _, rfl⟩
    · rw [if_neg h2]
      rcases hv : owner.verify_pin (pin.getD "") with ⟨res, owner'⟩
      rcases res with e | b
      · exact Or.inl ⟨rfl, e, rfl⟩
      · cases b
        · exact Or.inl ⟨rfl, _, rfl⟩
        · dsimp only
          by_cases h4 : acc.balance - amount < -lim
          · rw [if_pos h4]
            exact Or.inl ⟨rfl, _, rfl⟩
          · rw [if_neg h4]
            have ho' : owner' = { owner with failed_attempts := 0 } :=
              verify_pin_ok_true_inv owner (pin.getD "") owner' hv
            rw [ho']
            exact Or.inr ⟨not_le.mp h1, rfl⟩

/-- Shape of every dispatched `Account.withdraw` outcome. -/
lemma withdraw_shape (acc : Account) (owner : Customer) (amount : ℚ)
    (pin : Option String) :
    ((acc.withdraw owner amount pin).2.1 = acc ∧
      ∃ e, (acc.withdraw owner amount pin).1 = .error e) ∨
    (0 < amount ∧
      acc.withdraw owner amount pin
        = (.ok (),
           { acc with
             balance := acc.balance - amount,
             transactions := acc.transactions
               ++ [⟨"WITHDRAW", amount, acc.balance - amount⟩] },
           { owner with failed_attempts := 0 })) := by
  rcases hty : acc.atype with rate | lim
  · have hd : acc.withdraw owner amount pin = savings_withdraw acc owner amount pin := by
      unfold Account.withdraw
      rw [hty]
    rw [hd, ← hty]
    exact savings_withdraw_shape acc owner amount pin
  · have hd : acc.withdraw owner amount pin = checking_withdraw acc owner lim amount pin := by
      unfold Account.withdraw
      rw [hty]
    rw [hd, ← hty]
    exact checking_withdraw_shape acc owner lim amount pin

/-- Shape of the withdraw/deposit/log tail of `transfer`: either an error
with both accounts untouched, or the unique success state. -/
lemma transfer_move_shape (self target : Account) (owner : Customer)
    (amount : ℚ) (pin : Option String) :
    ((transfer_move self owner target amount pin).2.1 = self ∧
     (transfer_move self owner target amount pin).2.2.1 = target ∧
     ∃ e, (transfer_move self owner target amount pin).1 = .error e) ∨
    (transfer_move self owner target amount pin
      = (.ok (),
         { self with
           balance := self.balance - amount,
           transactions := self.transactions
             ++ [⟨"WITHDRAW", amount, self.balance - amount⟩,
                 ⟨"TRANSFER to " ++ target.account_number, amount,
                  self.balance - amount⟩] },
         { target with
           balance := target.balance + amount,
           transactions := target.transactions
             ++ [⟨"DEPOSIT", amount, target.balance + amount⟩] },
         { owner with failed_attempts := 0 })) := by
  rcases withdraw_shape self owner amount pin with ⟨hacc, e, herr⟩ | ⟨hpos, heq⟩
  · left
    rcases hw : self.withdraw owner amount pin with ⟨wres, self', owner'⟩
    rw [hw] at hacc herr
    dsimp only at hacc herr
    subst herr
    unfold transfer_move
    rw [hw]
    dsimp only
    exact ⟨hacc, rfl, e, rfl⟩
  · right
    unfold transfer_move
    rw [heq]
    dsimp only
    rw [deposit_pos_eq target amount none hpos]
    dsimp only
    unfold Account.log_transaction
    simp [List.append_assoc]

/-- Shape of the PIN stage of `transfer`. -/
lemma transfer_pin_stage_shape (self target : Account) (owner : Customer)
    (amount : ℚ) (pin : Option String) :
    ((transfer_pin_stage self owner target amount pin).2.1 = self ∧
     (transfer_pin_stage self owner target amount pin).2.2.1 = target ∧
     ∃ e, (transfer_pin_stage self owner target amount pin).1 = .error e) ∨
    ((transfer_pin_stage self owner target amount pin).1 = .ok () ∧
     (transfer_pin_stage self owner target amount pin).2.1
       = { self with
           balance := self.balance - amount,
           transactions := self.transactions
             ++ [⟨"WITHDRAW", amount, self.balance - amount⟩,
                 ⟨"TRANSFER to " ++ target.account_number, amount,
                  self.balance - amount⟩] } ∧
     (transfer_pin_stage self owner target amount pin).2.2.1
       = { target with
           balance := target.balance + amount,
           transactions := target.transactions
             ++ [⟨"DEPOSIT", amount, target.balance + amount⟩] }) := by
  unfold transfer_pin_stage
  by_cases hreq : self.requires_pin_for_withdrawal = true
  · rw [if_pos hreq]
    by_cases h2 : pinAbsent pin = true
    · rw [if_pos h2]
      exact Or.inl ⟨rfl, rfl, _, rfl⟩
    · rw [if_neg h2]
      rcases hv : owner.verify_pin (pin.getD "") with ⟨res, owner'⟩
      rcases res with e | b
      · exact Or.inl ⟨rfl, rfl, e, rfl⟩
      · cases b
        · exact Or.inl ⟨rfl, rfl, _, rfl⟩
        · dsimp only
          rcases transfer_move_shape self target owner' amount pin with
            ⟨h1, h2', e, h3⟩ | heq
          · exact Or.inl ⟨h1, h2', e, h3⟩
          · right
            rw [heq]
            exact ⟨rfl, rfl, rfl⟩
  · rw [if_neg hreq]
    rcases transfer_move_shape self target owner amount pin with
      ⟨h1, h2', e, h3⟩ | heq
    · exact Or.inl ⟨h1, h2', e, h3⟩
    · right
      rw [heq]
      exact ⟨rfl, rfl, rfl⟩

/-- Shape of every `Account.transfer` outcome: any error leaves both the
source and the target account exactly as they were; success subtracts and
adds the amount and appends the WITHDRAW and TRANSFER log entries. -/
lemma transfer_shape (self target : Account) (owner : Customer)
    (amount : ℚ) (pin : Option String) :
    ((self.transfer owner target amount pin).2.1 = self ∧
     (self.transfer owner target amount pin).2.2.1 = target ∧
     ∃ e, (self.transfer owner target amount pin).1 = .error e) ∨
    ((self.transfer owner target amount pin).1 = .ok () ∧
     (self.transfer owner target amount pin).2.1
       = { self with
           balance := self.balance - amount,
           transactions := self.transactions
             ++ [⟨"WITHDRAW", amount, self.balance - amount⟩,
                 ⟨"TRANSFER to " ++ target.account_number, amount,
                  self.balance - amount⟩] } ∧
     (self.transfer owner target amount pin).2.2.1
       = { target with
           balance := target.balance + amount,
           transactions := target.transactions
             ++ [⟨"DEPOSIT", amount, target.balance + amount⟩] }) := by
  unfold Account.transfer
  dsimp only
  by_cases hgt : amount > self.balance
  · rw [if_pos hgt]
    rcases hty : self.atype with rate | lim
    · exact Or.inl ⟨rfl, rfl, _, rfl⟩
    · dsimp only
      by_cases hgt2 : amount > self.balance + lim
      · rw [if_pos hgt2]
        exact Or.inl ⟨rfl, rfl, _, rfl⟩
      · rw [if_neg hgt2]
        rw [← hty]
        exact transfer_pin_stage_shape self target owner amount pin
  · rw [if_neg hgt]
    exact transfer_pin_stage_shape self target owner amount pin

/-- C3: a `transfer` that fails with any error (in particular
`InsufficientFundsError` or `InvalidPINError`) leaves the balances and
transaction logs of both the source and the destination account exactly
as they were (the whole account records are unchanged); only the owner
state may differ. -/
theorem C3_transfer_failure_frame (self target : Account) (owner : Customer)
    (amount : ℚ) (pin : Option String) (e : BankError)
    (h : (self.transfer owner target amount pin).1 = .error e) :
    (self.transfer owner target amount pin).2.1 = self ∧
    (self.transfer owner target amount pin).2.2.1 = target := by
  rcases transfer_shape self target owner amount pin with ⟨h1, h2, _, _⟩ | ⟨hok, _, _⟩
  · exact ⟨h1, h2⟩
  · rw [hok] at h
    exact absurd h (by simp)

/-- Witness for C3: the concrete wrong-PIN transfer changes neither
account. -/
theorem C3_transfer_failure_frame_witness :
    (wSavings.transfer wCustomer wTarget 150 (some "9999")).1
      = .error (.invalidPINError "Invalid PIN for transfer") ∧
    (wSavings.transfer wCustomer wTarget 150 (some "9999")).2.1 = wSavings ∧
    (wSavings.transfer wCustomer wTarget 150 (some "9999")).2.2.1 = wTarget :=
  ⟨rfl,
   C3_transfer_failure_frame wSavings wTarget wCustomer 150 (some "9999")
     (.invalidPINError "Invalid PIN for transfer") rfl⟩

/-- C4: a successful `transfer` of `amount` decreases the source balance
by exactly `amount`, increases the target balance by exactly `amount`,
and appends to the source log a transfer-out entry
`"TRANSFER to " ++ target.account_number` tagged with the target
identifier (after the WITHDRAW entry of the inner withdrawal). -/
theorem C4_transfer_success (self target : Account) (owner : Customer)
    (amount : ℚ) (pin : Option String)
    (h : (self.transfer owner target amount pin).1 = .ok ()) :
    (self.transfer owner target amount pin).2.1.balance = self.balance - amount ∧
    (self.transfer owner target amount pin).2.2.1.balance = target.balance + amount ∧
    (self.transfer owner target amount pin).2.1.transactions
      = self.transactions
        ++ [⟨"WITHDRAW", amount, self.balance - amount⟩,
            ⟨"TRANSFER to " ++ target.account_number, amount,
             self.balance - amount⟩] := by
  rcases transfer_shape self target owner amount pin with ⟨_, _, e, herr⟩ | ⟨_, hs, ht⟩
  · rw [herr] at h
    exact absurd h (by simp)
  · rw [hs, ht]
    exact ⟨rfl, rfl, rfl⟩

/-- Witness for C4: the concrete 150 transfer moves 1000/1500 to
850/1650. -/
theorem C4_transfer_success_witness :
    (wSavings.transfer wCustomer wTarget 150 (some "1234")).1 = .ok () ∧
    (wSavings.transfer wCustomer wTarget 150 (some "1234")).2.1.balance
      = wSavings.balance - 150 ∧
    (wSavings.transfer wCustomer wTarget 150 (some "1234")).2.2.1.balance
      = wTarget.balance + 150 := by
  have hne : ¬ ("1234" : String) = "" := by decide
  have h : (wSavings.transfer wCustomer wTarget 150 (some "1234")).1 = .ok () := by
    norm_num [Account.transfer, transfer_pin_stage, transfer_move, Account.withdraw,
      savings_withdraw, Account.deposit, Account.log_transaction, wSavings, wTarget,
      wCustomer, Customer.mk_new, Customer.verify_pin, pinAbsent, hash_pin,
      minimum_balance, String.isEmpty_iff, hne]
  exact ⟨h, (C4_transfer_success wSavings wTarget wCustomer 150 (some "1234") h).1,
         (C4_transfer_success wSavings wTarget wCustomer 150 (some "1234") h).2.1⟩

/-- Updating a key that is absent from an association list is a no-op. -/
lemma dict_update_not_mem {α : Type} (l : List (String × α)) (k : String) (v : α)
    (h : k ∉ l.map Prod.fst) : dict_update l k v = l := by
  induction l with
  | nil => rfl
  | cons hd tl ih =>
    obtain ⟨k0, v0⟩ := hd
    simp only [List.map_cons, List.mem_cons, not_or] at h
    obtain ⟨h1, h2⟩ := h
    simp only [dict_update]
    rw [if_neg (fun hc => h1 hc.symm), ih h2]

/-- `dict_set` with a fresh key appends the new entry. -/
lemma dict_get_none_set {α : Type} (l : List (String × α)) (k : String) (v : α)
    (h : dict_get l k = none) : dict_set l k v = l ++ [(k, v)] := by
  unfold dict_set
  rw [h]
  rfl

/-- Appending one account to the portfolio of the (unique) customer
stored under a key adds exactly that account to the multiset of all
portfolio accounts. -/
lemma portfolio_update (l : List (String × Customer)) (k : String)
    (c c' : Customer) (a : Account)
    (hnd : (l.map Prod.fst).Nodup) (hget : dict_get l k = some c)
    (hc' : c'.accounts = c.accounts ++ [a]) :
    (((dict_update l k c').flatMap fun p => p.2.accounts : List Account) : Multiset Account)
      = ((l.flatMap fun p => p.2.accounts : List Account) : Multiset Account) + {a} := by
  induction l with
  | nil => simp [dict_get] at hget
  | cons hd tl ih =>
    obtain ⟨k0, v0⟩ := hd
    simp only [List.map_cons, List.nodup_cons] at hnd
    obtain ⟨hk0, hndtl⟩ := hnd
    by_cases hk : k0 = k
    · subst hk
      have hv0 : v0 = c := by
        simpa [dict_get] using hget
      subst hv0
      have hupd : dict_update ((k0, v0) :: tl) k0 c' = (k0, c') :: tl := by
        simp only [dict_update, ite_true, if_true]
        rw [dict_update_not_mem tl k0 c' hk0]
      rw [hupd]
      simp only [List.flatMap_cons]
      rw [hc']
      simp only [← Multiset.coe_add, Multiset.coe_singleton]
      abel
    · have hget2 : dict_get tl k = some c := by
        simpa [dict_get, hk] using hget
      have ih2 := ih hndtl hget2
      simp only [dict_update]
      rw [if_neg hk]
      simp only [List.flatMap_cons]
      simp only [← Multiset.coe_add] at ih2 ⊢
      rw [ih2]
      abel

/-- Registering one freshly numbered account in both the owning
customer's portfolio and the global index grows each side of the
portfolio/index correspondence by exactly that account. -/
lemma bank_register_invariant (b : Bank) (cid num : String) (cust : Customer) (acct : Account)
    (hget : dict_get b.customers cid = some cust)
    (hnd : (b.customers.map Prod.fst).Nodup)
    (hfresh : dict_get b.accounts num = none) :
    (Bank.mk b.bank_name
        (dict_update b.customers cid { cust with accounts := cust.accounts ++ [acct] })
        (dict_set b.accounts num acct)).portfolioAccounts
      = b.portfolioAccounts + {acct} ∧
    (Bank.mk b.bank_name
        (dict_update b.customers cid { cust with accounts := cust.accounts ++ [acct] })
        (dict_set b.accounts num acct)).indexAccounts
      = b.indexAccounts + {acct} := by
  constructor
  · unfold Bank.portfolioAccounts
    exact portfolio_update b.customers cid cust _ acct hnd hget rfl
  · unfold Bank.indexAccounts
    rw [dict_get_none_set b.accounts num acct hfresh]
    rw [List.map_append]
    simp only [← Multiset.coe_add, List.map_cons, List.map_nil, Multiset.coe_singleton]

/-- C8: a successful `create_account` for an existing customer (unique
dict keys, freshly derived account number) names the new account
`<customer_id>-<zero-padded portfolio size + 1>`, registers it in both
the customer portfolio and the bank's global index, and preserves the
invariant that the accounts reachable from portfolios coincide with the
global index. -/
theorem C8_create_account (b : Bank) (cid account_type : String) (init : ℚ)
    (kw_ir kw_od : Option ℚ) (cust : Customer) (acct : Account) (b' : Bank)
    (hget : dict_get b.customers cid = some cust)
    (hnd : (b.customers.map Prod.fst).Nodup)
    (hfresh : dict_get b.accounts (cid ++ "-" ++ pad3 (cust.accounts.length + 1)) = none)
    (hok : b.create_account cid account_type init kw_ir kw_od = .ok (acct, b')) :
    acct.account_number = cid ++ "-" ++ pad3 (cust.accounts.length + 1) ∧
    b'.accounts = b.accounts ++ [(acct.account_number, acct)] ∧
    b'.portfolioAccounts = b.portfolioAccounts + {acct} ∧
    b'.indexAccounts = b.indexAccounts + {acct} ∧
    (b.portfolioAccounts = b.indexAccounts → b'.portfolioAccounts = b'.indexAccounts) := by
  by_cases hs : str_upper account_type = "SAVINGS"
  · have hadd : cust.add_account
        ⟨cid ++ "-" ++ pad3 (cust.accounts.length + 1), cust.customer_id, init, [],
         true, .savings (kw_ir.getD (2/100))⟩
        = .ok { cust with accounts := cust.accounts
            ++ [⟨cid ++ "-" ++ pad3 (cust.accounts.length + 1), cust.customer_id, init, [],
                 true, .savings (kw_ir.getD (2/100))⟩] } := by
      simp [Customer.add_account]
    have heq : b.create_account cid account_type init kw_ir kw_od
        = .ok (⟨cid ++ "-" ++ pad3 (cust.accounts.length + 1), cust.customer_id, init, [],
                true, .savings (kw_ir.getD (2/100))⟩,
               { b with
                 customers := dict_update b.customers cid
                   { cust with accounts := cust.accounts
                       ++ [⟨cid ++ "-" ++ pad3 (cust.accounts.length + 1), cust.customer_id,
                            init, [], true, .savings (kw_ir.getD (2/100))⟩] },
                 accounts := dict_set b.accounts
                   (cid ++ "-" ++ pad3 (cust.accounts.length + 1))
                   ⟨cid ++ "-" ++ pad3 (cust.accounts.length + 1), cust.customer_id, init, [],
                    true, .savings (kw_ir.getD (2/100))⟩ }) := by
      unfold Bank.create_account
      rw [hget]
      dsimp only
      rw [if_pos hs]
      dsimp only
      rw [hadd]
    rw [heq] at hok
    simp only [Except.ok.injEq, Prod.mk.injEq] at hok
    obtain ⟨hacct, hb'⟩ := hok
    subst hacct
    subst hb'
    have hreg := bank_register_invariant b cid
      (cid ++ "-" ++ pad3 (cust.accounts.length + 1)) cust
      ⟨cid ++ "-" ++ pad3 (cust.accounts.length + 1), cust.customer_id, init, [],
       true, .savings (kw_ir.getD (2/100))⟩ hget hnd hfresh
    refine ⟨rfl, ?_, hreg.1, hreg.2, ?_⟩
    · rw [dict_get_none_set _ _ _ hfresh]
    · intro hinv
      rw [hreg.1, hreg.2, hinv]
  · by_cases hc : str_upper account_type = "CHECKING"
    · have hadd : cust.add_account
          ⟨cid ++ "-" ++ pad3 (cust.accounts.length + 1), cust.customer_id, init, [],
           true, .checking (kw_od.getD 500)⟩
          = .ok { cust with accounts := cust.accounts
              ++ [⟨cid ++ "-" ++ pad3 (cust.accounts.length + 1), cust.customer_id, init, [],
                   true, .checking (kw_od.getD 500)⟩] } := by
        simp [Customer.add_account]
      have heq : b.create_account cid account_type init kw_ir kw_od
          = .ok (⟨cid ++ "-" ++ pad3 (cust.accounts.length + 1), cust.customer_id, init, [],
                  true, .checking (kw_od.getD 500)⟩,
                 { b with
                   customers := dict_update b.customers cid
                     { cust with accounts := cust.accounts
                         ++ [⟨cid ++ "-" ++ pad3 (cust.accounts.length + 1), cust.customer_id,
                              init, [], true, .checking (kw_od.getD 500)⟩] },
                   accounts := dict_set b.accounts
                     (cid ++ "-" ++ pad3 (cust.accounts.length + 1))
                     ⟨cid ++ "-" ++ pad3 (cust.accounts.length + 1), cust.customer_id, init, [],
                      true, .checking (kw_od.getD 500)⟩ }) := by
        unfold Bank.create_account
        rw [hget]
        dsimp only
        rw [if_neg hs, if_pos hc]
        dsimp only
        rw [hadd]
      rw [heq] at hok
      simp only [Except.ok.injEq, Prod.mk.injEq] at hok
      obtain ⟨hacct, hb'⟩ := hok
      subst hacct
      subst hb'
      have hreg := bank_register_invariant b cid
        (cid ++ "-" ++ pad3 (cust.accounts.length + 1)) cust
        ⟨cid ++ "-" ++ pad3 (cust.accounts.length + 1), cust.customer_id, init, [],
         true, .checking (kw_od.getD 500)⟩ hget hnd hfresh
      refine ⟨rfl, ?_, hreg.1, hreg.2, ?_⟩
      · rw [dict_get_none_set _ _ _ hfresh]
      · intro hinv
        rw [hreg.1, hreg.2, hinv]
    · exfalso
      unfold Bank.create_account at hok
      rw [hget] at hok
      dsimp only at hok
      rw [if_neg hs, if_neg hc] at hok
      simp at hok

/-- Witness for C8 on the concrete one-customer bank. -/
theorem C8_create_account_witness :
    dict_get wBank.customers "cust001" = some wCustomer ∧
    (wBank.customers.map Prod.fst).Nodup ∧
    dict_get wBank.accounts ("cust001" ++ "-" ++ pad3 (wCustomer.accounts.length + 1)) = none ∧
    wBank.create_account "cust001" "SAVINGS" 1000 none none
      = .ok (wSavings,
             ⟨"First Bank", [("cust001", { wCustomer with accounts := [wSavings] })],
              [("cust001-001", wSavings)]⟩) ∧
    wSavings.account_number
      = "cust001" ++ "-" ++ pad3 (wCustomer.accounts.length + 1) ∧
    (⟨"First Bank", [("cust001", { wCustomer with accounts := [wSavings] })],
      [("cust001-001", wSavings)]⟩ : Bank).portfolioAccounts
      = wBank.portfolioAccounts + {wSavings} := by
  have hok : wBank.create_account "cust001" "SAVINGS" 1000 none none
      = .ok (wSavings,
             ⟨"First Bank", [("cust001", { wCustomer with accounts := [wSavings] })],
              [("cust001-001", wSavings)]⟩) := by rfl
  refine ⟨rfl, by decide, rfl, hok, ?_, ?_⟩
  · exact (C8_create_account wBank "cust001" "SAVINGS" 1000 none none wCustomer wSavings
      _ rfl (by decide) rfl hok).1
  · exact (C8_create_account wBank "cust001" "SAVINGS" 1000 none none wCustomer wSavings
      _ rfl (by decide) rfl hok).2.2.1
